import Mathlib

/-!
Verification of the LSTM recurrence engine in `src/lstm/lstm.py`.

The source is a JAX program.  It is embedded shallowly over `ℚ`:

* a `jnp` column vector of shape `(n, 1)` is a `Col` (`List ℚ`) of length `n`
  with the trailing singleton axis left implicit;
* a 2-D `jnp` array of shape `(r, c)` is a `Mat` (`List (List ℚ)`), a list of
  `r` rows of length `c`;
* `@` (matrix-vector product), `+` and `*` on arrays are the list operations
  `matVec`, `vAdd` and `hadamard` below;
* the activation primitives are excluded collaborators of the core
  (`utils.sigmoid` is not under `src/`, and `jnp.tanh` is library code), so
  every embedded function is parametric in two elementwise scalar maps
  `sig th : ℚ → ℚ` standing for them;
* Python calls that bind a wrong number of positional arguments raise
  `TypeError` before the callee body runs; such calls are embedded as
  explicit `Except PyErr` error values.
-/

/-- Column vector: the entries of a `jnp` array of shape `(n, 1)`. -/
abbrev Col : Type := List ℚ

/-- Matrix: list of rows of a 2-D `jnp` array. -/
abbrev Mat : Type := List (List ℚ)

/-- Dot product of a matrix row with a column vector. -/
def dot (r v : Col) : ℚ := (List.zipWith (fun a b => a * b) r v).sum

/-- Matrix-vector product `m @ v`. -/
def matVec (m : Mat) (v : Col) : Col := m.map (fun r => dot r v)

/-- Elementwise sum of two column vectors. -/
def vAdd (a b : Col) : Col := List.zipWith (fun x y => x + y) a b

/-- Elementwise (Hadamard) product of two column vectors. -/
def hadamard (a b : Col) : Col := List.zipWith (fun x y => x * y) a b

/-- The zero column vector `jnp.zeros(shape=(n, 1))`. -/
def zeros (n : Nat) : Col := List.replicate n 0

/-- Python error values.  The embedding records only the exception class of a
raised error; the message text is irrelevant to the claims. -/
inductive PyErr where
  | typeError : PyErr
  | valueError : PyErr
  | assertionError : PyErr
deriving DecidableEq

/-- Parameter container `utils.LSTMParams`, constructed in `LSTM.init_params`
as `LSTMParams(wf, uf, bf, wi, ui, bi, wc, uc, bc, wo, uo, bo, wout)`; the
fields are the attribute names read by `lstm.py`.  `utils.py` is not under
`src/`; the two dimension fields are modelled from the spec, whose
CellParameters container carries the architecture dimensions
(`PeepholeLSTM.forward_full` reads `params.hidden_dim` and
`params.output_dim`). -/
structure LSTMParams where
  wf : Mat
  uf : Mat
  bf : Col
  wi : Mat
  ui : Mat
  bi : Col
  wc : Mat
  uc : Mat
  bc : Col
  wo : Mat
  uo : Mat
  bo : Col
  wout : Mat
  hidden_dim : Nat
  output_dim : Nat
deriving DecidableEq

/-- Architecture container `utils.LSTMArchiParams`, constructed in
`LSTM.init_params` as `LSTMArchiParams(key, input_dim, hidden_dim,
output_dim)`. -/
structure LSTMArchiParams where
  key : Nat
  input_dim : Nat
  hidden_dim : Nat
  output_dim : Nat
deriving DecidableEq

/-- Modelled from the spec: `utils.rng_normal` is not under `src/`.  The spec
treats random initialization as an excluded collaborator producing a tensor of
the requested shape; a JAX draw is a pure function of the PRNG key and the
shape, which is all the claims use, so the entry values below are an arbitrary
deterministic function of `(key, shape)`. -/
def rng_normal (key rows cols : Nat) : Mat :=
  (List.range rows).map (fun i =>
    (List.range cols).map (fun j =>
      (key : ℚ) + ((i * cols + j : Nat) : ℚ) / (((rows * cols + 1 : Nat)) : ℚ)))

/-- Identification of an `(n, 1)` array with its column of entries (the
embedding keeps the trailing singleton axis implicit, see the header). -/
def colOfMat (m : Mat) : Col := m.map (fun r => r.headD 0)

/-- `LSTM.init_params` (lstm.py lines 7-29): every tensor is drawn with the
same `key = jax.random.PRNGKey(seed)`; the key is never split. -/
def LSTM.init_params (seed input_dim hidden_dim output_dim : Nat) :
    LSTMArchiParams × LSTMParams :=
  let key := seed
  let wf := rng_normal key hidden_dim input_dim
  let uf := rng_normal key hidden_dim hidden_dim
  let bf := colOfMat (rng_normal key hidden_dim 1)
  let wi := rng_normal key hidden_dim input_dim
  let ui := rng_normal key hidden_dim hidden_dim
  let bi := colOfMat (rng_normal key hidden_dim 1)
  let wc := rng_normal key hidden_dim input_dim
  let uc := rng_normal key hidden_dim hidden_dim
  let bc := colOfMat (rng_normal key hidden_dim 1)
  let wo := rng_normal key hidden_dim input_dim
  let uo := rng_normal key hidden_dim hidden_dim
  let bo := colOfMat (rng_normal key hidden_dim 1)
  let wout := rng_normal key output_dim hidden_dim
  (⟨key, input_dim, hidden_dim, output_dim⟩,
   ⟨wf, uf, bf, wi, ui, bi, wc, uc, bc, wo, uo, bo, wout, hidden_dim, output_dim⟩)

/-- `LSTM.f_cur`: `sigmoid((params.uf @ h_prev) + (params.wf @ x_cur) + params.bf)`. -/
def LSTM.f_cur (sig : ℚ → ℚ) (params : LSTMParams) (x_cur h_prev : Col) : Col :=
  (vAdd (vAdd (matVec params.uf h_prev) (matVec params.wf x_cur)) params.bf).map sig

/-- `LSTM.i_cur`: `sigmoid((params.ui @ h_prev) + (params.wi @ x_cur) + params.bi)`. -/
def LSTM.i_cur (sig : ℚ → ℚ) (params : LSTMParams) (x_cur h_prev : Col) : Col :=
  (vAdd (vAdd (matVec params.ui h_prev) (matVec params.wi x_cur)) params.bi).map sig

/-- `LSTM.c_cur_hat`: `jnp.tanh((params.uc @ h_prev) + (params.wc @ x_cur) + params.bc)`. -/
def LSTM.c_cur_hat (th : ℚ → ℚ) (params : LSTMParams) (x_cur h_prev : Col) : Col :=
  (vAdd (vAdd (matVec params.uc h_prev) (matVec params.wc x_cur)) params.bc).map th

/-- `LSTM.o_cur`: `sigmoid(params.uo @ h_prev + params.wo @ x_cur + params.bo)`. -/
def LSTM.o_cur (sig : ℚ → ℚ) (params : LSTMParams) (x_cur h_prev : Col) : Col :=
  (vAdd (vAdd (matVec params.uo h_prev) (matVec params.wo x_cur)) params.bo).map sig

/-- `LSTM.c_cur`: `f_t * c_prev + i_t * c_t_hat` with the gates of this class. -/
def LSTM.c_cur (sig th : ℚ → ℚ) (params : LSTMParams) (x_cur h_prev c_prev : Col) : Col :=
  let i_t := LSTM.i_cur sig params x_cur h_prev
  let c_t_hat := LSTM.c_cur_hat th params x_cur h_prev
  let f_t := LSTM.f_cur sig params x_cur h_prev
  vAdd (hadamard f_t c_prev) (hadamard i_t c_t_hat)

/-- `LSTM.h_cur`: returns `(o_t * jnp.tanh(c_t), c_t)`. -/
def LSTM.h_cur (sig th : ℚ → ℚ) (params : LSTMParams) (x_cur h_prev c_prev : Col) :
    Col × Col :=
  let o_t := LSTM.o_cur sig params x_cur h_prev
  let c_t := LSTM.c_cur sig th params x_cur h_prev c_prev
  (hadamard o_t (c_t.map th), c_t)

/-- `LSTM.forward`: one scan step; takes the carried tuple
`(params, h_prev, c_prev)` and `x_cur`, returns the new carry and
`out_t = params.wout @ h_t`. -/
def LSTM.forward (sig th : ℚ → ℚ) (tup : LSTMParams × Col × Col) (x_cur : Col) :
    (LSTMParams × Col × Col) × Col :=
  let params := tup.1
  let h_prev := tup.2.1
  let c_prev := tup.2.2
  let hc := LSTM.h_cur sig th params x_cur h_prev c_prev
  ((params, hc.1, hc.2), matVec params.wout hc.1)

/-- Reference cell step for the standard variant, written from the spec text
(spec 4.1-4.2): gates `g_t = sigmoid(U_g h_prev + W_g x_cur + b_g)`, candidate
`c_hat_t = tanh(U_c h_prev + W_c x_cur + b_c)`, then
`c_cur = f_t ⊙ c_prev + i_t ⊙ c_hat_t`, `h_cur = o_t ⊙ tanh(c_cur)`,
`out_cur = Wout h_cur`; result `(h_cur, c_cur, out_cur)`. -/
def specCellStepStandard (sig th : ℚ → ℚ) (params : LSTMParams)
    (x_cur h_prev c_prev : Col) : Col × Col × Col :=
  let f_t := (vAdd (vAdd (matVec params.uf h_prev) (matVec params.wf x_cur)) params.bf).map sig
  let i_t := (vAdd (vAdd (matVec params.ui h_prev) (matVec params.wi x_cur)) params.bi).map sig
  let o_t := (vAdd (vAdd (matVec params.uo h_prev) (matVec params.wo x_cur)) params.bo).map sig
  let c_hat_t := (vAdd (vAdd (matVec params.uc h_prev) (matVec params.wc x_cur)) params.bc).map th
  let c_cur := vAdd (hadamard f_t c_prev) (hadamard i_t c_hat_t)
  let h_cur := hadamard o_t (c_cur.map th)
  (h_cur, c_cur, matVec params.wout h_cur)

/-- C1: for the standard variant, for every activation primitives, parameters,
input vector and previous state, the cell step `LSTM.forward` carries the
parameters unchanged and produces exactly the hidden state, cell state and
output of the reference definition `specCellStepStandard`. -/
theorem standard_cell_step_matches_spec (sig th : ℚ → ℚ) (params : LSTMParams)
    (x_cur h_prev c_prev : Col) :
    LSTM.forward sig th (params, h_prev, c_prev) x_cur =
      ((params, (specCellStepStandard sig th params x_cur h_prev c_prev).1,
        (specCellStepStandard sig th params x_cur h_prev c_prev).2.1),
       (specCellStepStandard sig th params x_cur h_prev c_prev).2.2) := by
  rfl

/-- `jax.lax.scan`: folds a step function over the leading axis of the input,
collecting the per-step emissions in order. -/
def lax_scan {S X Y : Type} (f : S → X → S × Y) : S → List X → S × List Y
  | s, [] => (s, [])
  | s, x :: xs =>
    let sy := f s x
    let rest := lax_scan f sy.1 xs
    (rest.1, sy.2 :: rest.2)

/-- `LSTM.forward_full` (lstm.py lines 103-111): zero-initialises `(h, c)` of
size `hidden_dim` and scans `LSTM.forward` over `x_in[0]` — the source indexes
the leading singleton axis of `x_in`, so `x_in` is a list whose first element
is the sequence of timestep column vectors. -/
def LSTM.forward_full (sig th : ℚ → ℚ) (archi_params : LSTMArchiParams)
    (params : LSTMParams) (x_in : List (List Col)) : List Col :=
  let h := zeros archi_params.hidden_dim
  let c := zeros archi_params.hidden_dim
  (lax_scan (LSTM.forward sig th) (params, h, c) (x_in.headD [])).2

/-- `LSTM.forward_batch` (lstm.py lines 113-120): `jax.vmap` of
`LSTM.forward_full` over the leading batch axis with the parameters held
fixed, i.e. an independent per-sequence map; `jnp.squeeze(axis=3)` drops the
trailing singleton axis of each output vector, which `Col` already leaves
implicit, so it is the identity here. -/
def LSTM.forward_batch (sig th : ℚ → ℚ) (archi_params : LSTMArchiParams)
    (params : LSTMParams) (x_batch : List (List (List Col))) : List (List Col) :=
  x_batch.map (LSTM.forward_full sig th archi_params params)

/-- Elementwise difference of two batches of output sequences. -/
def bsub (a b : List (List Col)) : List (List Col) :=
  List.zipWith (fun s t => List.zipWith (fun u v => List.zipWith (fun p q => p - q) u v) s t) a b

/-- Elementwise square of a batch of output sequences. -/
def bsq (a : List (List Col)) : List (List Col) :=
  a.map (fun s => s.map (fun u => u.map (fun p => p * p)))

/-- All scalar elements of a batch of output sequences, flattened. -/
def bflat (a : List (List Col)) : List ℚ :=
  (a.map (fun s => s.flatten)).flatten

/-- `jnp.mean` over all elements of a batch. -/
def jmean (l : List ℚ) : ℚ := l.sum / (l.length : ℚ)

/-- `LSTM.mse` (lstm.py lines 122-130): `jnp.mean((batch_out - y_batch) ** 2)`. -/
def LSTM.mse (sig th : ℚ → ℚ) (archi_params : LSTMArchiParams) (params : LSTMParams)
    (x_batch : List (List (List Col))) (y_batch : List (List Col)) : ℚ :=
  jmean (bflat (bsq (bsub (LSTM.forward_batch sig th archi_params params x_batch) y_batch)))

/-- A scan emits one output per input element. -/
theorem lax_scan_length {S X Y : Type} (f : S → X → S × Y) :
    ∀ (xs : List X) (s : S), ((lax_scan f s xs).2).length = xs.length := by
  intro xs
  induction xs with
  | nil => intro s; rfl
  | cons x xs ih =>
    intro s
    simp [lax_scan, ih]

/-- A scan over a concatenation is the first scan followed by a scan of the
rest from the carried state. -/
theorem lax_scan_append {S X Y : Type} (f : S → X → S × Y) :
    ∀ (xs ys : List X) (s : S),
      lax_scan f s (xs ++ ys) =
        ((lax_scan f (lax_scan f s xs).1 ys).1,
         (lax_scan f s xs).2 ++ (lax_scan f (lax_scan f s xs).1 ys).2) := by
  intro xs
  induction xs with
  | nil => intro ys s; rfl
  | cons x xs ih =>
    intro ys s
    simp [lax_scan, ih]

/-- Every output emitted by scanning `LSTM.forward` is `wout @ h` for the
carried parameters, hence has as many entries as `wout` has rows. -/
theorem lax_scan_forward_out_length (sig th : ℚ → ℚ) (params : LSTMParams) :
    ∀ (xs : List Col) (h c : Col),
      ∀ o ∈ (lax_scan (LSTM.forward sig th) (params, h, c) xs).2,
        o.length = params.wout.length := by
  intro xs
  induction xs with
  | nil => intro h c o ho; simp [lax_scan] at ho
  | cons x xs ih =>
    intro h c o ho
    simp only [lax_scan, List.mem_cons] at ho
    rcases ho with ho | ho
    · subst ho
      simp [LSTM.forward, matVec]
    · exact ih _ _ o ho

/-- C5: for every activation primitives, parameters and sequence, the sequence
scan `LSTM.forward_full` (whose input wraps the sequence in the leading
singleton axis the source indexes with `x_in[0]`) returns exactly one output
vector per timestep, each with `output_dim` entries when `wout` has
`output_dim` rows; the empty sequence yields the empty output list; and the
outputs for a prefix of the input are the corresponding prefix of the outputs,
so outputs are in input timestep order. -/
theorem sequence_scan_shape_law (sig th : ℚ → ℚ) (archi_params : LSTMArchiParams)
    (params : LSTMParams) (seq : List Col)
    (hw : params.wout.length = archi_params.output_dim) :
    (LSTM.forward_full sig th archi_params params [seq]).length = seq.length ∧
    (∀ o ∈ LSTM.forward_full sig th archi_params params [seq],
      o.length = archi_params.output_dim) ∧
    LSTM.forward_full sig th archi_params params [[]] = [] ∧
    ∀ t : List Col,
      (LSTM.forward_full sig th archi_params params [seq ++ t]).take seq.length =
        LSTM.forward_full sig th archi_params params [seq] := by
  refine ⟨?_, ?_, rfl, ?_⟩
  · simpa [LSTM.forward_full] using
      lax_scan_length (LSTM.forward sig th) seq
        (params, zeros archi_params.hidden_dim, zeros archi_params.hidden_dim)
  · intro o ho
    have h1 : o.length = params.wout.length :=
      lax_scan_forward_out_length sig th params seq
        (zeros archi_params.hidden_dim) (zeros archi_params.hidden_dim) o
        (by simpa [LSTM.forward_full] using ho)
    rw [h1, hw]
  · intro t
    simp only [LSTM.forward_full, List.headD]
    rw [lax_scan_append]
    have hl := lax_scan_length (LSTM.forward sig th) seq
      (params, zeros archi_params.hidden_dim, zeros archi_params.hidden_dim)
    rw [← hl]
    exact List.take_left _ _

/-- Architecture of the spec shape-law instance `(input_dim=3, hidden_dim=4,
output_dim=2)`. -/
def archi342 : LSTMArchiParams := (LSTM.init_params 0 3 4 2).1

/-- Parameters initialised for the spec shape-law instance. -/
def p342 : LSTMParams := (LSTM.init_params 0 3 4 2).2

/-- A concrete sequence of 5 timesteps of 3-entry input vectors. -/
def seq5 : List Col := List.replicate 5 (zeros 3)

theorem sequence_scan_shape_law_witness :
    p342.wout.length = archi342.output_dim ∧
    ((LSTM.forward_full id id archi342 p342 [seq5]).length = seq5.length ∧
     (∀ o ∈ LSTM.forward_full id id archi342 p342 [seq5],
       o.length = archi342.output_dim) ∧
     LSTM.forward_full id id archi342 p342 [[]] = [] ∧
     ∀ t : List Col,
       (LSTM.forward_full id id archi342 p342 [seq5 ++ t]).take seq5.length =
         LSTM.forward_full id id archi342 p342 [seq5]) :=
  ⟨by decide, sequence_scan_shape_law id id archi342 p342 seq5 (by decide)⟩

/-- C6: the batch executor is an independent per-sequence map: its output at
batch index `k` is exactly the output of running the sequence scan alone on
the `k`-th sequence with the same parameters. -/
theorem batch_executor_batch_independence (sig th : ℚ → ℚ)
    (archi_params : LSTMArchiParams) (params : LSTMParams)
    (x_batch : List (List (List Col))) (k : Nat) (hk : k < x_batch.length) :
    (LSTM.forward_batch sig th archi_params params x_batch).getD k [] =
      LSTM.forward_full sig th archi_params params (x_batch.getD k []) := by
  unfold LSTM.forward_batch
  rw [List.getD_eq_getElem _ _ (by simpa using hk), List.getD_eq_getElem _ _ hk]
  simp

/-- A concrete batch of two sequences (each wrapped in the leading singleton
axis that `LSTM.forward_full` indexes with `x_in[0]`). -/
def xb2 : List (List (List Col)) := [[[zeros 3, zeros 3]], [[zeros 3]]]

theorem batch_executor_batch_independence_witness :
    (LSTM.forward_batch id id archi342 p342 xb2).getD 0 [] =
      LSTM.forward_full id id archi342 p342 (xb2.getD 0 []) :=
  batch_executor_batch_independence id id archi342 p342 xb2 0 (by decide)

/-- `PeepholeLSTM.f_cur` (lstm.py lines 144-152):
`sigmoid(params.wf @ jnp.concatenate([c_prev, h_prev, x_cur]) + params.bf)`. -/
def PeepholeLSTM.f_cur (sig : ℚ → ℚ) (params : LSTMParams) (x_cur h_prev c_prev : Col) : Col :=
  (vAdd (matVec params.wf (c_prev ++ h_prev ++ x_cur)) params.bf).map sig

/-- `PeepholeLSTM.i_cur` (lstm.py lines 154-162):
`sigmoid(params.wi @ jnp.concatenate([c_prev, h_prev, x_cur]) + params.bi)`. -/
def PeepholeLSTM.i_cur (sig : ℚ → ℚ) (params : LSTMParams) (x_cur h_prev c_prev : Col) : Col :=
  (vAdd (matVec params.wi (c_prev ++ h_prev ++ x_cur)) params.bi).map sig

/-- `PeepholeLSTM.o_cur` (lstm.py lines 164-172):
`sigmoid(params.wo @ jnp.concatenate([c_cur, h_prev, x_cur]) + params.bo)`. -/
def PeepholeLSTM.o_cur (sig : ℚ → ℚ) (params : LSTMParams) (x_cur h_prev c_cur : Col) : Col :=
  (vAdd (matVec params.wo (c_cur ++ h_prev ++ x_cur)) params.bo).map sig

/-- `PeepholeLSTM.c_cur`: the class does not override `c_cur`, so attribute
lookup resolves it to the inherited `LSTM.c_cur` — whose body invokes
`LSTM.i_cur`, `LSTM.c_cur_hat` and `LSTM.f_cur` by explicit class name, not
the overriding peephole gates. -/
def PeepholeLSTM.c_cur (sig th : ℚ → ℚ) : LSTMParams → Col → Col → Col → Col :=
  LSTM.c_cur sig th

/-- `PeepholeLSTM.h_cur` (lstm.py lines 174-183): the output gate is applied
to the separately passed current cell state `c_t`, the `tanh` factor to the
cell update recomputed from `c_prev`. -/
def PeepholeLSTM.h_cur (sig th : ℚ → ℚ) (params : LSTMParams)
    (x_cur h_prev c_prev c_t : Col) : Col :=
  hadamard (PeepholeLSTM.o_cur sig params x_cur h_prev c_t)
    ((PeepholeLSTM.c_cur sig th params x_cur h_prev c_prev).map th)

/-- `PeepholeLSTM.forward` (lstm.py lines 185-197): computes `c_t` first, then
`h_t` from it, then `o_t = wout @ h_t`; returns `(c_t, o_t, h_t)`. -/
def PeepholeLSTM.forward (sig th : ℚ → ℚ) (params : LSTMParams)
    (x_cur h_prev c_prev : Col) (wout : Mat) : Col × Col × Col :=
  let c_t := PeepholeLSTM.c_cur sig th params x_cur h_prev c_prev
  let h_t := PeepholeLSTM.h_cur sig th params x_cur h_prev c_prev c_t
  let o_t := matVec wout h_t
  (c_t, o_t, h_t)

/-- Reference peephole cell-state update, written from the spec text (spec 4.1):
`f_t = sigmoid(W_f concat(c_prev, h_prev, x_cur) + b_f)`,
`i_t = sigmoid(W_i concat(c_prev, h_prev, x_cur) + b_i)`,
`c_hat_t = tanh(U_c h_prev + W_c x_cur + b_c)`,
`c_cur = f_t ⊙ c_prev + i_t ⊙ c_hat_t`. -/
def specPeepholeCellUpdate (sig th : ℚ → ℚ) (params : LSTMParams)
    (x_cur h_prev c_prev : Col) : Col :=
  let f_t := (vAdd (matVec params.wf (c_prev ++ h_prev ++ x_cur)) params.bf).map sig
  let i_t := (vAdd (matVec params.wi (c_prev ++ h_prev ++ x_cur)) params.bi).map sig
  let c_hat_t := (vAdd (vAdd (matVec params.uc h_prev) (matVec params.wc x_cur)) params.bc).map th
  vAdd (hadamard f_t c_prev) (hadamard i_t c_hat_t)

/-- Concrete parameters exhibiting the peephole cell-update divergence:
`wf` has the peephole shape `1 × (1+1+1)`, all the other gate tensors are
zero, dimensions `hidden_dim = input_dim = output_dim = 1`. -/
def pC3 : LSTMParams :=
  ⟨[[1, 1, 1]], [[0]], [0], [[0, 0, 0]], [[0]], [0], [[0, 0, 0]], [[0]], [0],
   [[0, 0, 0]], [[0]], [0], [[1]], 1, 1⟩

/-- C3: the cell-state update actually used by the peephole variant is the
inherited `LSTM.c_cur`, built from the standard gates
`sigmoid(U_g h_prev + W_g x_cur + b_g)`; at a concrete input it differs from
the concat-gate update `sigmoid(W_g concat(c_prev, h_prev, x_cur) + b_g)` the
claim states, because `LSTM.c_cur` names `LSTM.f_cur` and `LSTM.i_cur`
explicitly and the peephole overrides are never consulted. -/
theorem peephole_cell_update_uses_standard_gates :
    (∀ (sig th : ℚ → ℚ) (params : LSTMParams) (x_cur h_prev c_prev : Col),
      PeepholeLSTM.c_cur sig th params x_cur h_prev c_prev =
        LSTM.c_cur sig th params x_cur h_prev c_prev) ∧
    PeepholeLSTM.c_cur id (fun _ => 0) pC3 [1] [0] [1] ≠
      specPeepholeCellUpdate id (fun _ => 0) pC3 [1] [0] [1] :=
  ⟨fun _ _ _ _ _ _ => rfl, by
    norm_num [PeepholeLSTM.c_cur, LSTM.c_cur, LSTM.f_cur, LSTM.i_cur, LSTM.c_cur_hat,
      specPeepholeCellUpdate, pC3, dot, matVec, vAdd, hadamard]⟩

/-- Concrete parameters for the output-gate dependence instance: `wo` reads
only the cell-state block of the concatenation. -/
def pC7 : LSTMParams :=
  ⟨[[0]], [[0]], [0], [[0]], [[0]], [0], [[0]], [[0]], [0],
   [[1, 0, 0]], [[0]], [0], [[1]], 1, 1⟩

/-- C7: in the peephole one-timestep transition the output gate consumes the
already-updated cell state: `PeepholeLSTM.forward` returns
`h_cur = sigmoid(W_o concat(c_cur, h_prev, x_cur) + b_o) ⊙ tanh(c_cur)` with
`c_cur` computed first within the same step; and altering only the cell state
fed to the output gate (holding `c_prev` fixed) changes `h_cur` at a concrete
instance. -/
theorem peephole_output_gate_reads_updated_cell_state :
    (∀ (sig th : ℚ → ℚ) (params : LSTMParams) (x_cur h_prev c_prev : Col) (wout : Mat),
      PeepholeLSTM.forward sig th params x_cur h_prev c_prev wout =
        (PeepholeLSTM.c_cur sig th params x_cur h_prev c_prev,
         matVec wout (hadamard
           ((vAdd (matVec params.wo
               (PeepholeLSTM.c_cur sig th params x_cur h_prev c_prev ++ h_prev ++ x_cur))
             params.bo).map sig)
           ((PeepholeLSTM.c_cur sig th params x_cur h_prev c_prev).map th)),
         hadamard
           ((vAdd (matVec params.wo
               (PeepholeLSTM.c_cur sig th params x_cur h_prev c_prev ++ h_prev ++ x_cur))
             params.bo).map sig)
           ((PeepholeLSTM.c_cur sig th params x_cur h_prev c_prev).map th))) ∧
    PeepholeLSTM.h_cur id (fun _ => 1) pC7 [0] [0] [0] [0] ≠
      PeepholeLSTM.h_cur id (fun _ => 1) pC7 [0] [0] [0] [1] :=
  ⟨fun _ _ _ _ _ _ _ => rfl, by
    norm_num [PeepholeLSTM.h_cur, PeepholeLSTM.o_cur, PeepholeLSTM.c_cur, LSTM.c_cur,
      LSTM.f_cur, LSTM.i_cur, LSTM.c_cur_hat, pC7, dot, matVec, vAdd, hadamard]⟩

/-- Call of `LSTM.forward` with five positional arguments, as written in the
loop of `PeepholeLSTM.forward_full` (lstm.py lines 208-214): `LSTM.forward`
accepts exactly two parameters `(tup, x_cur)`, so Python raises `TypeError`
when binding the arguments, before the body runs; no value is produced. -/
def LSTM.forward_args5 (_params : LSTMParams) (_x _h _c : Col) (_wout : Mat) :
    Except PyErr (Col × Col × Col) :=
  .error .typeError

/-- Column `i` of a 2-D array, `x_in[:, i:i+1]`. -/
def matColumn (m : Mat) (i : Nat) : Col := m.map (fun r => r.getD i 0)

/-- Loop body of `PeepholeLSTM.forward_full` over the timestep indices
`range(time_steps)` (2-D input branch, lstm.py lines 208-216): each iteration
calls `LSTM.forward` with five positional arguments and appends the emitted
output. -/
def peepholeForwardFullLoop (params : LSTMParams) (x_in : Mat) :
    List Nat → Col → Col → List Col → Except PyErr (List Col)
  | [], _, _, o_ls => .ok o_ls.reverse
  | i :: rest, h, c, o_ls =>
    match LSTM.forward_args5 params (matColumn x_in i) h c params.wout with
    | .error e => .error e
    | .ok r => peepholeForwardFullLoop params x_in rest r.2.2 r.1 (r.2.1 :: o_ls)

/-- `PeepholeLSTM.forward_full` (lstm.py lines 199-217): reads
`time_steps = x_in.shape[1]`, zero-initialises the state from the dimension
fields, then runs the loop; the activation primitives never apply because
every iteration raises at the argument-binding step.  The embedding models
the 2-D input branch; the 1-D and 3-D branches call `LSTM.forward` with the
same five positional arguments. -/
def PeepholeLSTM.forward_full (params : LSTMParams) (x_in : Mat) :
    Except PyErr (List Col) :=
  let time_steps := (x_in.headD []).length
  peepholeForwardFullLoop params x_in (List.range time_steps)
    (zeros params.hidden_dim) (zeros params.hidden_dim) []

/-- Call of `LSTM.forward_full` with two positional arguments, as
`jax.vmap(LSTM.forward_full, in_axes=(None, 0))` applies it in
`PeepholeLSTM.forward_batch` (lstm.py lines 219-225): `LSTM.forward_full`
takes three parameters `(archi_params, params, x_in)`, so Python raises
`TypeError` for the missing third argument. -/
def LSTM.forward_full_args2 (α : Type) (_params : LSTMParams) (_x : List Mat) :
    Except PyErr α :=
  .error .typeError

/-- `PeepholeLSTM.forward_batch` (lstm.py lines 219-225): vmaps the
three-parameter `LSTM.forward_full` over two arguments, so the underlying
call never completes. -/
def PeepholeLSTM.forward_batch (params : LSTMParams) (x_batch : List Mat) :
    Except PyErr (List (List Col)) :=
  LSTM.forward_full_args2 (List (List Col)) params x_batch

/-- Call of `LSTM.forward_batch` with two positional arguments, as written in
`PeepholeLSTM.mse` (lstm.py line 233): `LSTM.forward_batch` takes three
parameters `(archi_params, params, x_batch)`, so Python raises `TypeError`
for the missing third argument. -/
def LSTM.forward_batch_args2 (α : Type) (_params : LSTMParams)
    (_x : List (List (List Col))) : Except PyErr α :=
  .error .typeError

/-- `PeepholeLSTM.mse` (lstm.py lines 227-234): would return
`jnp.mean((batch_out - y_batch) ** 2) * 100`, but the `batch_out` call raises
first. -/
def PeepholeLSTM.mse (params : LSTMParams) (x_batch : List (List (List Col)))
    (y_batch : List (List Col)) : Except PyErr ℚ :=
  match LSTM.forward_batch_args2 (List (List Col)) params x_batch with
  | .error e => .error e
  | .ok batch_out => .ok (jmean (bflat (bsq (bsub batch_out y_batch))) * 100)

/-- Call of `LSTM.mse` with three positional arguments, as
`jax.jacobian(LSTM.mse, argnums=(0,), allow_int=True)` applies it in
`PeepholeLSTM.backward` (lstm.py lines 236-244): `LSTM.mse` takes four
parameters `(archi_params, params, x_batch, y_batch)`, so Python raises
`TypeError` for the missing fourth argument when the wrapped function is
invoked. -/
def LSTM.mse_args3 (α : Type) (_params : LSTMParams)
    (_x : List (List (List Col))) (_y : List (List Col)) : Except PyErr α :=
  .error .typeError

/-- `PeepholeLSTM.backward` (lstm.py lines 236-244): differentiates the parent
class `LSTM.mse` (not `PeepholeLSTM.mse`) and calls the wrapped function with
three of its four arguments, so no gradient structure is ever produced. -/
def PeepholeLSTM.backward (params : LSTMParams) (x_batch : List (List (List Col)))
    (y_batch : List (List Col)) : Except PyErr LSTMParams :=
  LSTM.mse_args3 LSTMParams params x_batch y_batch

/-- Container `utils.LSTMModelParams`, constructed in `LSTMModel.init_params`
as `LSTMModelParams(num_lstm, lstm_type, layers)`. -/
structure LSTMModelParams where
  num_lstm : Nat
  lstm_type : String
  layers : List (LSTMArchiParams × LSTMParams)

/-- `LSTMModel.init_params` (lstm.py lines 246-274): asserts `num_lstm >= 1`,
accepts `lstm_type` of `vanilla` (building `LSTM.init_params` layers) or
`peephole` (building `PeepholeLSTM.init_params` layers, which is the inherited
`LSTM.init_params`), and raises `ValueError` for any other selector; no
architecture dimension is validated. -/
def LSTMModel.init_params (input_dim hidden_dim output_dim num_lstm : Nat)
    (lstm_type : String) (seed : Nat) : Except PyErr LSTMModelParams :=
  if num_lstm < 1 then .error .assertionError
  else if lstm_type = "vanilla" then
    .ok ⟨num_lstm, lstm_type,
      (List.range num_lstm).map (fun _ => LSTM.init_params seed input_dim hidden_dim output_dim)⟩
  else if lstm_type = "peephole" then
    .ok ⟨num_lstm, lstm_type,
      (List.range num_lstm).map (fun _ => LSTM.init_params seed input_dim hidden_dim output_dim)⟩
  else .error .valueError

/-- C9: for every parameters and every 2-D input with at least one timestep
(`x_in.shape[1] >= 1`), the peephole sequence scan raises `TypeError` instead
of returning an output sequence, because its loop calls the two-parameter
`LSTM.forward` with five positional arguments; and `PeepholeLSTM.forward_batch`
never completes normally on any batch, because it vmaps the three-parameter
`LSTM.forward_full` over two arguments. -/
theorem peephole_sequence_scan_raises (params : LSTMParams) (x_in : Mat)
    (hT : 1 ≤ (x_in.headD []).length) :
    PeepholeLSTM.forward_full params x_in = .error .typeError ∧
    ∀ x_batch : List Mat,
      PeepholeLSTM.forward_batch params x_batch = .error .typeError := by
  constructor
  · unfold PeepholeLSTM.forward_full
    obtain ⟨n, hn⟩ : ∃ n, (x_in.headD []).length = n + 1 :=
      ⟨_, (Nat.succ_pred_eq_of_pos hT).symm⟩
    simp only [hn, List.range_succ_eq_map]
    rfl
  · intro x_batch
    rfl

theorem peephole_sequence_scan_raises_witness :
    1 ≤ (([[0]] : Mat).headD []).length ∧
    (PeepholeLSTM.forward_full pC7 [[0]] = .error .typeError ∧
     ∀ x_batch : List Mat,
       PeepholeLSTM.forward_batch pC7 x_batch = .error .typeError) :=
  ⟨by decide, peephole_sequence_scan_raises pC7 [[0]] (by decide)⟩

/-- C2: the peephole gradient engine never returns a gradient: evaluated at
concrete parameters and batches, `PeepholeLSTM.backward` raises `TypeError`,
because it differentiates the four-parameter `LSTM.mse` and invokes it with
three arguments. -/
theorem peephole_backward_raises :
    PeepholeLSTM.backward p342 [[[zeros 3]]] [[zeros 2]] = .error .typeError :=
  rfl

/-- C4: the peephole loss never returns a value: evaluated at concrete
parameters and batches, `PeepholeLSTM.mse` raises `TypeError`, because it
calls the three-parameter `LSTM.forward_batch` with two arguments (and even
its unreached formula scales the mean squared error by 100). -/
theorem peephole_mse_raises :
    PeepholeLSTM.mse p342 [[[zeros 3]]] [[zeros 2]] = .error .typeError :=
  rfl

/-- C8 counterexample: model construction accepts `input_dim = 0` (a
non-positive architecture dimension) without any error, and raises
`ValueError` for the selector `standard`, which the claim lists as valid; both
contradict the claimed characterisation of construction-time errors. -/
theorem model_construction_validation_counterexample :
    (∃ m, LSTMModel.init_params 0 4 2 1 "vanilla" 0 = .ok m) ∧
    LSTMModel.init_params 3 4 2 1 "standard" 0 = .error .valueError :=
  ⟨⟨_, rfl⟩, rfl⟩

/-- C8 amended: `LSTMModel.init_params` raises at construction time exactly
when `num_lstm < 1` (AssertionError) or the variant selector is neither
`vanilla` nor `peephole` (ValueError); the standard variant is selected by
`vanilla`, and architecture dimensions are not validated. -/
theorem model_construction_validation_amended
    (input_dim hidden_dim output_dim num_lstm : Nat) (lstm_type : String) (seed : Nat) :
    (∃ e, LSTMModel.init_params input_dim hidden_dim output_dim num_lstm lstm_type seed =
      .error e) ↔
      (num_lstm < 1 ∨ (lstm_type ≠ "vanilla" ∧ lstm_type ≠ "peephole")) := by
  unfold LSTMModel.init_params
  split_ifs with h1 h2 h3
  · simp [h1]
  · simp [h1, h2]
  · simp [h1, h2, h3]
  · simp [h1, h2, h3]

/-- C10: every tensor in `LSTM.init_params` is drawn with the same PRNG key,
so for every seed and dimensions the four gates start with identical weights:
`wf = wi = wc = wo`, `uf = ui = uc = uo` and `bf = bi = bc = bo`. -/
theorem init_params_reuses_single_key (seed input_dim hidden_dim output_dim : Nat) :
    (LSTM.init_params seed input_dim hidden_dim output_dim).2.wf =
        (LSTM.init_params seed input_dim hidden_dim output_dim).2.wi ∧
    (LSTM.init_params seed input_dim hidden_dim output_dim).2.wi =
        (LSTM.init_params seed input_dim hidden_dim output_dim).2.wc ∧
    (LSTM.init_params seed input_dim hidden_dim output_dim).2.wc =
        (LSTM.init_params seed input_dim hidden_dim output_dim).2.wo ∧
    (LSTM.init_params seed input_dim hidden_dim output_dim).2.uf =
        (LSTM.init_params seed input_dim hidden_dim output_dim).2.ui ∧
    (LSTM.init_params seed input_dim hidden_dim output_dim).2.ui =
        (LSTM.init_params seed input_dim hidden_dim output_dim).2.uc ∧
    (LSTM.init_params seed input_dim hidden_dim output_dim).2.uc =
        (LSTM.init_params seed input_dim hidden_dim output_dim).2.uo ∧
    (LSTM.init_params seed input_dim hidden_dim output_dim).2.bf =
        (LSTM.init_params seed input_dim hidden_dim output_dim).2.bi ∧
    (LSTM.init_params seed input_dim hidden_dim output_dim).2.bi =
        (LSTM.init_params seed input_dim hidden_dim output_dim).2.bc ∧
    (LSTM.init_params seed input_dim hidden_dim output_dim).2.bc =
        (LSTM.init_params seed input_dim hidden_dim output_dim).2.bo :=
  ⟨rfl, rfl, rfl, rfl, rfl, rfl, rfl, rfl, rfl⟩
